import Mathlib

/-!
Verification of the DTD repository's link-layer protocol stack.

Shallow embedding conventions: a byte is a natural number below 256 and a byte
string is a `List ℕ`; Python floats are modelled as rationals; a Python dict is
an insertion-ordered association list; randomness and the transport are oracle
parameters; fallible operations return `Option`.
-/

namespace DTD

/-- Start-of-frame marker byte, from `ta_config.py` (`RADIO["FRAME"]`). -/
def START_BYTE : ℕ := 0xA5

/-- End-of-frame marker byte (`ta_config.py`). -/
def END_BYTE : ℕ := 0x5A

/-- Protocol version byte (`ta_config.py`). -/
def PROTO_VER : ℕ := 0x01

/-- Maximum frame length in bytes (`ta_config.py`). -/
def MAX_LEN : ℕ := 16

/-- Command byte for a status request (`ta_radio_433.py` line 84). -/
def CMD_GET_STS : ℕ := 0x20

/-- XOR checksum of version, command, target id, payload length and every
payload byte, truncated to 8 bits (`_chk` in `ta_radio_433.py` lines 87-91). -/
def _chk (ver cmd grp : ℕ) (payload : List ℕ) : ℕ :=
  let s := (ver ^^^ cmd ^^^ (grp % 256) ^^^ payload.length) % 256
  (payload.foldl (fun s b => s ^^^ (b % 256)) s) % 256

/-- Frame encoder (`_mk_frame` in `ta_radio_433.py` lines 93-102).  Returns
`none` where the Python code raises `ValueError` on an oversized payload.  The
Python `bytes` constructor additionally requires every element to be below 256;
the theorems about this definition only invoke it on such inputs. -/
def _mk_frame (cmd gid : ℕ) (payload : List ℕ) : Option (List ℕ) :=
  if payload.length > MAX_LEN - 7 then none
  else
    let ver := PROTO_VER % 256
    let gid := gid % 256
    let ln := payload.length % 256
    let chk := _chk ver cmd gid payload
    some ([START_BYTE, ver, cmd, gid, ln] ++ payload ++ [chk, END_BYTE])

/-- Frame decoder (`_parse_frame` in `ta_radio_433.py` lines 104-119).  Total:
every malformed input yields `none`, never an error.  `buf[-1]` is the last
byte (`getLast?`) and `buf[5+ln]` is the byte right after the payload
(`(buf.drop 5).getD ln 0`); both accesses are guarded exactly as in the
source. -/
def _parse_frame (buf : List ℕ) : Option (ℕ × ℕ × List ℕ) :=
  if buf.length < 7 then none
  else if buf.getD 0 0 ≠ START_BYTE ∨ buf.getLast? ≠ some END_BYTE then none
  else
    let ver := buf.getD 1 0
    let cmd := buf.getD 2 0
    let gid := buf.getD 3 0
    let ln := buf.getD 4 0
    if 5 + ln + 2 ≠ buf.length then none
    else
      let payload := (buf.drop 5).take ln
      let chk := (buf.drop 5).getD ln 0
      if _chk ver cmd gid payload ≠ chk then none
      else some (cmd, gid, payload)

/-- Decoding a well-shaped frame reduces to the checksum comparison. -/
lemma _parse_frame_mk (ver cmd gid chk : ℕ) (payload : List ℕ) :
    _parse_frame ([START_BYTE, ver, cmd, gid, payload.length] ++
        (payload ++ [chk, END_BYTE])) =
      if _chk ver cmd gid payload = chk then some (cmd, gid, payload) else none := by
  have hlen : (([START_BYTE, ver, cmd, gid, payload.length] : List ℕ) ++
      (payload ++ [chk, END_BYTE])).length = 7 + payload.length := by
    simp [List.length_append]
    omega
  have h0 : (([START_BYTE, ver, cmd, gid, payload.length] : List ℕ) ++
      (payload ++ [chk, END_BYTE])).getD 0 0 = START_BYTE := rfl
  have h1 : (([START_BYTE, ver, cmd, gid, payload.length] : List ℕ) ++
      (payload ++ [chk, END_BYTE])).getD 1 0 = ver := rfl
  have h2 : (([START_BYTE, ver, cmd, gid, payload.length] : List ℕ) ++
      (payload ++ [chk, END_BYTE])).getD 2 0 = cmd := rfl
  have h3 : (([START_BYTE, ver, cmd, gid, payload.length] : List ℕ) ++
      (payload ++ [chk, END_BYTE])).getD 3 0 = gid := rfl
  have h4 : (([START_BYTE, ver, cmd, gid, payload.length] : List ℕ) ++
      (payload ++ [chk, END_BYTE])).getD 4 0 = payload.length := rfl
  have hdrop : (([START_BYTE, ver, cmd, gid, payload.length] : List ℕ) ++
      (payload ++ [chk, END_BYTE])).drop 5 = payload ++ [chk, END_BYTE] := rfl
  have hlast : (([START_BYTE, ver, cmd, gid, payload.length] : List ℕ) ++
      (payload ++ [chk, END_BYTE])).getLast? = some END_BYTE := by
    rw [List.getLast?_append, List.getLast?_append]
    rfl
  have hchk : ((payload ++ [chk, END_BYTE]).getD payload.length 0) = chk := by
    rw [List.getD_append_right payload [chk, END_BYTE] 0 payload.length le_rfl,
      Nat.sub_self]
    rfl
  have hpay : ((payload ++ [chk, END_BYTE]).take payload.length) = payload :=
    List.take_left payload _
  simp only [_parse_frame]
  rw [hlen, h0, h1, h2, h3, h4, hdrop, hlast, hchk, hpay]
  rw [if_neg (by omega), if_neg (by simp), if_neg (by omega)]
  by_cases h : _chk ver cmd gid payload = chk
  · simp [h]
  · simp [h]

end DTD

namespace DTD

/-- C1: encoding a command byte, a target id below 256 and a payload of at most
`MAX_LEN - 7` bytes, then decoding the produced frame, returns exactly the
encoded triple (`decode_binary (encode_binary cmd id payload) = (cmd, id,
payload)`). -/
theorem frame_roundtrip (cmd gid : ℕ) (payload : List ℕ)
    (hcmd : cmd < 256) (hgid : gid < 256)
    (hlen : payload.length ≤ MAX_LEN - 7) (hbytes : ∀ b ∈ payload, b < 256) :
    (_mk_frame cmd gid payload).bind _parse_frame = some (cmd, gid, payload) := by
  have hlen9 : payload.length ≤ 9 := by simpa [MAX_LEN] using hlen
  have hln : payload.length % 256 = payload.length := Nat.mod_eq_of_lt (by omega)
  have hgid' : gid % 256 = gid := Nat.mod_eq_of_lt hgid
  have hmk : _mk_frame cmd gid payload =
      some ([START_BYTE, PROTO_VER % 256, cmd, gid % 256, payload.length % 256] ++
        payload ++ [_chk (PROTO_VER % 256) cmd (gid % 256) payload, END_BYTE]) := by
    unfold _mk_frame
    rw [if_neg (by simp only [MAX_LEN]; omega)]
  rw [hmk]
  simp only [Option.some_bind]
  rw [hln, List.append_assoc, _parse_frame_mk]
  simp [hgid']

/-- C1 witness: a concrete round-trip through the codec. -/
theorem frame_roundtrip_witness :
    (_mk_frame 0x20 1 [7]).bind _parse_frame = some (0x20, 1, [7]) :=
  frame_roundtrip 0x20 1 [7] (by decide) (by decide) (by decide) (by decide)

/-- C4: the decoder returns `none` on every malformed input — too short, bad
start or end marker, declared length disagreeing with the actual size, or a
checksum mismatch; being a total function it never raises. -/
theorem parse_frame_rejects_malformed (buf : List ℕ)
    (h : buf.length < 7 ∨ buf.getD 0 0 ≠ START_BYTE ∨ buf.getLast? ≠ some END_BYTE ∨
      5 + buf.getD 4 0 + 2 ≠ buf.length ∨
      _chk (buf.getD 1 0) (buf.getD 2 0) (buf.getD 3 0)
          ((buf.drop 5).take (buf.getD 4 0)) ≠ (buf.drop 5).getD (buf.getD 4 0) 0) :
    _parse_frame buf = none := by
  simp only [_parse_frame]
  split_ifs with h1 h2 h3 h4
  · rfl
  · rfl
  · rfl
  · rfl
  · exfalso
    push_neg at h2
    rcases h with h | h | h | h | h
    · exact h1 h
    · exact h h2.1
    · exact h h2.2
    · exact h3 h
    · exact h4 h

/-- C4 witness: the empty input is rejected. -/
theorem parse_frame_rejects_malformed_witness : _parse_frame [] = none :=
  parse_frame_rejects_malformed [] (Or.inl (by decide))

end DTD

namespace DTD

/-- Configured detector ids (`RADIO["GROUP_IDS"]` in `ta_config.py`).  Ids are
small integers on the terminal side. -/
def GROUP_IDS : List ℤ := [1, 2, 3, 4, 5]

/-- Poll period in milliseconds (`ta_config.py`). -/
def POLL_PERIOD_MS : ℕ := 1500

/-- Normalized presence states (`ta_config.py`). -/
def STATE_UNKNOWN : ℕ := 0

/-- Presence state: device answered present. -/
def STATE_PRESENT : ℕ := 1

/-- Presence state: device answered absent. -/
def STATE_ABSENT : ℕ := 2

/-- Radio statistics counters (`RadioStats` in `ta_radio_433.py` lines
122-162).  The smoothed `avg_rssi` float is modelled as a rational and
`last_update` as a tick count. -/
structure RadioStats where
  tx_count : ℕ
  rx_count : ℕ
  tx_errors : ℕ
  rx_errors : ℕ
  timeouts : ℕ
  avg_rssi : ℚ
  last_update : ℕ

/-- Success-rate computation (`RadioStats.get_success_rate`, lines 150-155):
`0.0` on an empty sample, otherwise `100 * (1 - errors / total)`. -/
def get_success_rate (s : RadioStats) : ℚ :=
  let total := s.tx_count + s.rx_count
  if total = 0 then 0
  else
    let errors := s.tx_errors + s.rx_errors
    100 * (1 - (errors : ℚ) / (total : ℚ))

/-- C10: `get_success_rate` is total — with no traffic recorded it returns
exactly `0.0` instead of dividing by zero, and on every other counter state it
returns the defined ratio formula. -/
theorem get_success_rate_total (s : RadioStats) :
    (s.tx_count + s.rx_count = 0 → get_success_rate s = 0) ∧
    (s.tx_count + s.rx_count ≠ 0 → get_success_rate s =
      100 * (1 - ((s.tx_errors + s.rx_errors : ℕ) : ℚ) /
        ((s.tx_count + s.rx_count : ℕ) : ℚ))) := by
  constructor <;> intro h <;> simp [get_success_rate, h]

/-- C10 witness: freshly reset counters give a 0.0 rate. -/
theorem get_success_rate_total_witness :
    get_success_rate ⟨0, 0, 0, 0, 0, 0, 0⟩ = 0 :=
  (get_success_rate_total ⟨0, 0, 0, 0, 0, 0, 0⟩).1 rfl

/-- Per-detector status record (`DDStatus` in `ta_radio_433.py` lines
165-172). -/
structure DDStatus where
  dd_id : ℤ
  state : ℕ
  battery : ℕ
  rssi : ℕ
  flags : ℕ
deriving DecidableEq

/-- Effective sweep period in loop ticks (`Radio.poll_status` line 322:
`max(1, int(POLL_PERIOD_MS // 200) or 1)`; Python `x or 1` is 1 when `x` is
0). -/
def poll_period : ℕ :=
  max 1 (if POLL_PERIOD_MS / 200 = 0 then 1 else POLL_PERIOD_MS / 200)

/-- Status sweep (`Radio.poll_status`, `ta_radio_433.py` lines 319-338) in the
configured simulation mode (`SIMULATE = True`).  `tick` is the `_tick` counter
before the call, `sim_states` the `_sim_states` dict, and `batt_of`/`rssi_of`
are oracles for the randomized battery and RSSI draws.  Returns the
incremented tick and the emitted status list. -/
def poll_status (tick : ℕ) (sim_states : ℤ → Option ℕ) (batt_of rssi_of : ℤ → ℕ) :
    ℕ × List DDStatus :=
  let tick := tick + 1
  if tick % poll_period = 0 then
    (tick, GROUP_IDS.map fun gid =>
      ⟨gid, (sim_states gid).getD STATE_UNKNOWN, batt_of gid, rssi_of gid, 0⟩)
  else (tick, [])

/-- C7 counterexample: on the very first loop tick no sweep is due and
`poll_status` returns the empty sequence, which does not contain a status
entry for configured device 1 — the claim that every invocation covers the
full configured device set is false. -/
theorem poll_status_not_covering_every_call :
    (poll_status 0 (fun _ => none) (fun _ => 0) (fun _ => 0)).2 = [] ∧
      (1 : ℤ) ∈ GROUP_IDS := by
  constructor
  · rfl
  · decide

/-- C7 (amended): when a sweep is due (`(tick+1) % period = 0`) `poll_status`
returns exactly one freshly sampled status per configured device, in the
configured order; on every other invocation it returns the empty sequence and
the caller's table keeps the last-known states. -/
theorem poll_status_coverage (tick : ℕ) (sim_states : ℤ → Option ℕ)
    (batt_of rssi_of : ℤ → ℕ) :
    ((tick + 1) % poll_period = 0 →
      ((poll_status tick sim_states batt_of rssi_of).2).map DDStatus.dd_id =
        GROUP_IDS) ∧
    ((tick + 1) % poll_period ≠ 0 →
      (poll_status tick sim_states batt_of rssi_of).2 = []) := by
  constructor <;> intro h <;>
    simp [poll_status, h, List.map_map, Function.comp_def]

/-- C7 witness: on the seventh tick a sweep is due and all five configured
devices are covered. -/
theorem poll_status_coverage_witness :
    ((poll_status 6 (fun _ => none) (fun _ => 0) (fun _ => 0)).2).map
      DDStatus.dd_id = GROUP_IDS :=
  (poll_status_coverage 6 (fun _ => none) (fun _ => 0) (fun _ => 0)).1 (by decide)

/-- Single-target status request (`Radio.request_status`, `ta_radio_433.py`
lines 340-346).  The reply of `_exchange_with_retry` is an oracle argument;
the returned flag records whether that exchange was performed at all
(transport writes, retries and statistics updates all happen inside it). -/
def request_status (dd_id : ℤ) (exch : Option (ℕ × ℕ × List ℕ)) : ℕ × Bool :=
  if dd_id ∉ GROUP_IDS then (STATE_UNKNOWN, false)
  else
    match exch with
    | some resp =>
      (if resp.1 = CMD_GET_STS ∧ resp.2.2.length = 1 then resp.2.2.getD 0 0
       else STATE_UNKNOWN, true)
    | none => (STATE_UNKNOWN, true)

/-- C9: a status request for an id outside the configured list returns
`STATE_UNKNOWN` immediately, whatever the transport would have answered, and
performs no exchange (hence no write, no retry, no statistics change). -/
theorem request_status_unknown_id (dd_id : ℤ) (exch : Option (ℕ × ℕ × List ℕ))
    (h : dd_id ∉ GROUP_IDS) :
    request_status dd_id exch = (STATE_UNKNOWN, false) := by
  simp [request_status, h]

/-- C9 witness: id 99 is rejected without touching the transport. -/
theorem request_status_unknown_id_witness :
    request_status 99 (some (CMD_GET_STS, 99, [STATE_PRESENT])) =
      (STATE_UNKNOWN, false) :=
  request_status_unknown_id 99 (some (CMD_GET_STS, 99, [STATE_PRESENT]))
    (by decide)

end DTD

namespace DTD

/-- Keys of an insertion-ordered Python dict modelled as an association
list. -/
def dict_keys (d : List (ℤ × ℕ)) : List ℤ := d.map Prod.fst

/-- Python dict assignment `d[k] = v`: update in place when the key exists,
append otherwise. -/
def dict_set (d : List (ℤ × ℕ)) (k : ℤ) (v : ℕ) : List (ℤ × ℕ) :=
  if d.any (fun p => p.1 = k) then
    d.map fun p => if p.1 = k then (k, v) else p
  else d ++ [(k, v)]

/-- Initial terminal-side state table (`TaApp.__init__`, `ta_app.py` line 31:
`{dd_id: STATE_UNKNOWN for dd_id in GROUP_IDS}`). -/
def init_states : List (ℤ × ℕ) := GROUP_IDS.map fun gid => (gid, STATE_UNKNOWN)

/-- State-table refresh (`TaApp._update_states`, `ta_app.py` lines 91-98):
every polled status is written into the table by plain dict assignment
`self.states[st.dd_id] = st.state`. -/
def _update_states (states : List (ℤ × ℕ)) (polled : List DDStatus) :
    List (ℤ × ℕ) :=
  polled.foldl (fun d st => dict_set d st.dd_id st.state) states

/-- Assigning to an existing key leaves the key list unchanged. -/
lemma dict_keys_set_mem (d : List (ℤ × ℕ)) (k : ℤ) (v : ℕ)
    (h : k ∈ dict_keys d) : dict_keys (dict_set d k v) = dict_keys d := by
  have hany : d.any (fun p => p.1 = k) = true := by
    simp only [dict_keys, List.mem_map] at h
    obtain ⟨p, hp, hpk⟩ := h
    simp only [List.any_eq_true, decide_eq_true_eq]
    exact ⟨p, hp, hpk⟩
  simp only [dict_set, hany, if_true, dict_keys, List.map_map]
  refine List.map_congr_left fun p _ => ?_
  by_cases hpk : p.1 = k
  · simp [Function.comp, hpk]
  · simp [Function.comp, hpk]

/-- Applying statuses whose ids are all existing keys never changes the key
list. -/
lemma dict_keys_update_states (polled : List DDStatus) :
    ∀ states : List (ℤ × ℕ), (∀ st ∈ polled, st.dd_id ∈ dict_keys states) →
      dict_keys (_update_states states polled) = dict_keys states := by
  induction polled with
  | nil => intro states _; rfl
  | cons st rest ih =>
    intro states h
    have hmem : st.dd_id ∈ dict_keys states := h st (by simp)
    have hkeys := dict_keys_set_mem states st.dd_id st.state hmem
    have hrest : ∀ st' ∈ rest, st'.dd_id ∈ dict_keys (dict_set states st.dd_id st.state) := by
      intro st' hst'
      rw [hkeys]
      exact h st' (by simp [hst'])
    calc dict_keys (_update_states states (st :: rest))
        = dict_keys (_update_states (dict_set states st.dd_id st.state) rest) := rfl
      _ = dict_keys (dict_set states st.dd_id st.state) := ih _ hrest
      _ = dict_keys states := hkeys

/-- C2 counterexample: the table update performs no key check — applying a
status update for id 99, which is not a key of the freshly initialized table,
inserts it, so the key set no longer equals the configured id list. -/
theorem update_states_inserts_unknown_id :
    (99 : ℤ) ∉ dict_keys init_states ∧
      dict_keys (_update_states init_states [⟨99, STATE_PRESENT, 90, 90, 0⟩]) =
        [1, 2, 3, 4, 5, 99] := by
  constructor
  · decide
  · decide

/-- C2 (amended): the dict assignment in `_update_states` inserts unknown ids
rather than rejecting them; however every status produced by `poll_status`
carries a configured id, so whenever the table's key set equals the configured
id list it still equals it after `_update_states` consumes a `poll_status`
sweep. -/
theorem update_states_preserves_configured_keys
    (states : List (ℤ × ℕ)) (tick : ℕ) (sim_states : ℤ → Option ℕ)
    (batt_of rssi_of : ℤ → ℕ) (h : dict_keys states = GROUP_IDS) :
    dict_keys (_update_states states
      (poll_status tick sim_states batt_of rssi_of).2) = GROUP_IDS := by
  rw [← h]
  apply dict_keys_update_states
  intro st hst
  rw [h]
  revert hst
  simp only [poll_status]
  split_ifs with hdue
  · simp only [List.mem_map]
    rintro ⟨gid, hgid, rfl⟩
    exact hgid
  · intro hst
    exact absurd hst (List.not_mem_nil st)

/-- C2 witness: a concrete sweep applied to the initial table keeps the
configured key set. -/
theorem update_states_preserves_configured_keys_witness :
    dict_keys (_update_states init_states
      (poll_status 6 (fun _ => none) (fun _ => 0) (fun _ => 0)).2) = GROUP_IDS :=
  update_states_preserves_configured_keys init_states 6 (fun _ => none)
    (fun _ => 0) (fun _ => 0) (by decide)

end DTD

namespace DTD

/-- Retry policy (`RADIO["RETRY"]` in `ta_config.py`; the spec's
`RetryPolicy`).  The timeout base and multiplier are Python floats, modelled
as rationals.  The spec's data model requires `max attempts ≥ 1` and
`base timeout ≥ 100`. -/
structure RetryPolicy where
  max_retries : ℕ
  timeout_base_ms : ℚ
  timeout_multiplier : ℚ
  backoff_enabled : Bool
  backoff_ms : ℕ

/-- The configured policy: `MAX_RETRIES 3`, `TIMEOUT_BASE_MS 500`,
`TIMEOUT_MULTIPLIER 1.5`, `BACKOFF_ENABLED True`, `BACKOFF_MS 100`. -/
def RETRY_CFG : RetryPolicy := ⟨3, 500, 3 / 2, true, 100⟩

/-- Python `int()` applied to a rational: truncation toward zero. -/
def py_int (x : ℚ) : ℤ := if 0 ≤ x then ⌊x⌋ else ⌈x⌉

/-- Timeout passed to `_exchange` on a given 0-indexed attempt
(`int(TIMEOUT_BASE_MS * (TIMEOUT_MULTIPLIER ** attempt))`, `ta_radio_433.py`
lines 262-263). -/
def retry_timeout (p : RetryPolicy) (attempt : ℕ) : ℤ :=
  py_int (p.timeout_base_ms * p.timeout_multiplier ^ attempt)

/-- Retry loop of `Radio._exchange_with_retry` (`ta_radio_433.py` lines
259-278), running from attempt index `attempt` with `rem` attempts remaining
(at the top call `attempt = 0` and `rem = MAX_RETRIES`, so the source's
backoff guard `attempt < MAX_RETRIES - 1` is `0 < rem`).  `exch` is the
underlying single exchange, given the attempt index and the timeout passed to
it.  Returns the result, the list of per-attempt timeouts passed to `exch`,
and the list of backoff sleeps performed between attempts. -/
def retry_from (exch : ℕ → ℤ → Option (ℕ × ℕ × List ℕ)) (p : RetryPolicy) :
    ℕ → ℕ → Option (ℕ × ℕ × List ℕ) × List ℤ × List ℕ
  | _, 0 => (none, [], [])
  | attempt, rem + 1 =>
    let t := retry_timeout p attempt
    match exch attempt t with
    | some r => (some r, [t], [])
    | none =>
      let backs := if p.backoff_enabled ∧ 0 < rem then
          [p.backoff_ms * (attempt + 1)] else []
      let res := retry_from exch p (attempt + 1) rem
      (res.1, t :: res.2.1, backs ++ res.2.2)

/-- Full retry sequence (`Radio._exchange_with_retry`): up to `MAX_RETRIES`
attempts starting at attempt index 0. -/
def _exchange_with_retry (exch : ℕ → ℤ → Option (ℕ × ℕ × List ℕ))
    (p : RetryPolicy) : Option (ℕ × ℕ × List ℕ) × List ℤ × List ℕ :=
  retry_from exch p 0 p.max_retries

/-- Against an always-failing exchange the retry loop returns `none`. -/
lemma retry_from_all_fail_fst (exch : ℕ → ℤ → Option (ℕ × ℕ × List ℕ))
    (p : RetryPolicy) (hfail : ∀ a t, exch a t = none) :
    ∀ rem attempt, (retry_from exch p attempt rem).1 = none := by
  intro rem
  induction rem with
  | zero => intro attempt; rfl
  | succ rem ih =>
    intro attempt
    simp only [retry_from]
    rw [hfail]
    simpa using ih (attempt + 1)

/-- Against an always-failing exchange the retry loop performs one attempt per
remaining slot, passing the geometric timeouts in order. -/
lemma retry_from_all_fail_timeouts (exch : ℕ → ℤ → Option (ℕ × ℕ × List ℕ))
    (p : RetryPolicy) (hfail : ∀ a t, exch a t = none) :
    ∀ rem attempt, (retry_from exch p attempt rem).2.1 =
      (List.range rem).map fun i => retry_timeout p (attempt + i) := by
  intro rem
  induction rem with
  | zero => intro attempt; rfl
  | succ rem ih =>
    intro attempt
    simp only [retry_from]
    rw [hfail]
    simp only [List.range_succ_eq_map, List.map_cons, List.map_map]
    refine congrArg₂ List.cons (by rw [Nat.add_zero]) ?_
    rw [ih (attempt + 1)]
    refine List.map_congr_left fun i _ => ?_
    simp only [Function.comp_apply]
    exact congrArg (retry_timeout p) (by omega)

/-- C3 (amended): against a transport whose every single exchange fails,
`_exchange_with_retry` calls the underlying exchange exactly `max_retries`
times, passing on attempt `i` the timeout `int(base * multiplier ^ i)`; the
passed (truncated) timeouts are non-decreasing whenever the multiplier is at
least 1, the untruncated value `base * multiplier ^ i` is strictly increasing
whenever the multiplier exceeds 1, and the overall result is `None`. -/
theorem exchange_with_retry_exhausts (p : RetryPolicy)
    (exch : ℕ → ℤ → Option (ℕ × ℕ × List ℕ))
    (hmax : 1 ≤ p.max_retries) (hfail : ∀ a t, exch a t = none)
    (hbase : 100 ≤ p.timeout_base_ms) :
    (_exchange_with_retry exch p).1 = none ∧
    (_exchange_with_retry exch p).2.1 =
      (List.range p.max_retries).map (retry_timeout p) ∧
    ((_exchange_with_retry exch p).2.1).length = p.max_retries ∧
    (1 ≤ p.timeout_multiplier → ∀ i j, i < j →
      retry_timeout p i ≤ retry_timeout p j) ∧
    (1 < p.timeout_multiplier → ∀ i j, i < j →
      p.timeout_base_ms * p.timeout_multiplier ^ i <
        p.timeout_base_ms * p.timeout_multiplier ^ j) := by
  have hb0 : (0 : ℚ) ≤ p.timeout_base_ms := by linarith
  have hts : (_exchange_with_retry exch p).2.1 =
      (List.range p.max_retries).map (retry_timeout p) := by
    rw [_exchange_with_retry, retry_from_all_fail_timeouts exch p hfail]
    exact List.map_congr_left fun i _ => congrArg (retry_timeout p) (Nat.zero_add i)
  refine ⟨retry_from_all_fail_fst exch p hfail _ _, hts, ?_, ?_, ?_⟩
  · rw [hts, List.length_map, List.length_range]
  · intro hm i j hij
    have hm0 : (0 : ℚ) ≤ p.timeout_multiplier := by linarith
    have hx : ∀ n : ℕ, (0 : ℚ) ≤ p.timeout_base_ms * p.timeout_multiplier ^ n :=
      fun n => mul_nonneg hb0 (pow_nonneg hm0 n)
    have hle : p.timeout_base_ms * p.timeout_multiplier ^ i ≤
        p.timeout_base_ms * p.timeout_multiplier ^ j :=
      mul_le_mul_of_nonneg_left (pow_le_pow_right₀ hm (le_of_lt hij)) hb0
    simp only [retry_timeout, py_int, if_pos (hx i), if_pos (hx j)]
    exact Int.floor_le_floor hle
  · intro hm i j hij
    exact mul_lt_mul_of_pos_left (pow_lt_pow_right₀ hm hij) (by linarith)

/-- C3 witness: the configured policy run against an always-failing transport
performs exactly 3 attempts and returns `None`. -/
theorem exchange_with_retry_exhausts_witness :
    (_exchange_with_retry (fun _ _ => none) RETRY_CFG).1 = none ∧
    (_exchange_with_retry (fun _ _ => none) RETRY_CFG).2.1 =
      (List.range RETRY_CFG.max_retries).map (retry_timeout RETRY_CFG) ∧
    ((_exchange_with_retry (fun _ _ => none) RETRY_CFG).2.1).length =
      RETRY_CFG.max_retries ∧
    (1 ≤ RETRY_CFG.timeout_multiplier → ∀ i j, i < j →
      retry_timeout RETRY_CFG i ≤ retry_timeout RETRY_CFG j) ∧
    (1 < RETRY_CFG.timeout_multiplier → ∀ i j, i < j →
      RETRY_CFG.timeout_base_ms * RETRY_CFG.timeout_multiplier ^ i <
        RETRY_CFG.timeout_base_ms * RETRY_CFG.timeout_multiplier ^ j) :=
  exchange_with_retry_exhausts RETRY_CFG (fun _ _ => none) (by decide)
    (fun _ _ => rfl) (by norm_num [RETRY_CFG])

/-- Policy exhibiting the truncation collapse: 2 attempts, base 100 ms,
multiplier 1.001 — a valid policy under the spec's RetryPolicy bounds. -/
def cex_policy : RetryPolicy := ⟨2, 100, 1001 / 1000, false, 0⟩

/-- C3 counterexample: with maxAttempts 2, base 100 and multiplier 1.001 the
timeouts the code actually passes are `int(100) = 100` and
`int(100.1) = 100` — not strictly increasing although the multiplier exceeds
1, because of the `int()` truncation. -/
theorem exchange_with_retry_timeouts_not_strictly_increasing :
    1 < cex_policy.timeout_multiplier ∧
    100 ≤ cex_policy.timeout_base_ms ∧
    1 ≤ cex_policy.max_retries ∧
    (_exchange_with_retry (fun _ _ => none) cex_policy).2.1 = [100, 100] := by
  refine ⟨by norm_num [cex_policy], by norm_num [cex_policy], by decide, ?_⟩
  have h0 : retry_timeout cex_policy 0 = 100 := by
    simp only [retry_timeout, cex_policy, py_int, pow_zero, mul_one]
    rw [if_pos (by norm_num)]
    rw [Int.floor_eq_iff] <;> norm_num
  have h1 : retry_timeout cex_policy 1 = 100 := by
    simp only [retry_timeout, cex_policy, py_int, pow_one]
    rw [if_pos (by norm_num)]
    rw [Int.floor_eq_iff] <;> norm_num
  have ht : (_exchange_with_retry (fun _ _ => none) cex_policy).2.1 =
      (List.range 2).map fun i => retry_timeout cex_policy (0 + i) :=
    retry_from_all_fail_timeouts (fun _ _ => none) cex_policy (fun _ _ => rfl) 2 0
  rw [ht]
  simp [List.range_succ, h0, h1]

end DTD

namespace DTD

/-- First index at or after `start` holding a byte satisfying `pb` (Python
`buf.find(b, start)`); `none` where Python returns -1. -/
def find_from (pb : ℕ → Bool) (start : ℕ) (buf : List ℕ) : Option ℕ :=
  ((buf.drop start).findIdx? pb).map (· + start)

/-- Receive loop of the physical-mode exchange (`Radio._exchange`,
`ta_radio_433.py` lines 300-313).  `chunks` is the sequence of `_read_all`
results observed during the timeout window, and exhausting it models the
timeout; `buf` accumulates the receive buffer.  Each non-empty chunk is
appended, then the slice `buf[s:e+1]` from the first start marker `s` to the
first end marker `e` after it is parsed; a successful parse is returned
immediately, anything else keeps polling. -/
def exchange_rx_loop : List (List ℕ) → List ℕ → Option (ℕ × ℕ × List ℕ)
  | [], _ => none
  | chunk :: rest, buf =>
    if chunk.isEmpty then exchange_rx_loop rest buf
    else
      let buf := buf ++ chunk
      match buf.findIdx? (fun b => b = START_BYTE) with
      | none => exchange_rx_loop rest buf
      | some s =>
        match find_from (fun b => b = END_BYTE) (s + 1) buf with
        | none => exchange_rx_loop rest buf
        | some e =>
          match _parse_frame ((buf.drop s).take (e - s + 1)) with
          | some parsed => some parsed
          | none => exchange_rx_loop rest buf

/-- Physical-mode exchange (`Radio._exchange`, hardware path, lines 296-317):
the request frame for `(cmd, gid, payload)` is written to the transport —
the write cannot influence which bytes arrive, so the reply depends only on
the received `chunks` — then the receive loop runs on an empty buffer. -/
def _exchange (cmd gid : ℕ) (payload : List ℕ) (chunks : List (List ℕ)) :
    Option (ℕ × ℕ × List ℕ) :=
  exchange_rx_loop chunks []

/-- C8 counterexample: the receive buffer `A5 00 5A` followed by the
structurally valid frame `A5 01 20 01 00 20 5A` contains a valid frame, yet
the exchange returns `none`: the slice from the first start marker to the
first end marker is the garbage prefix, it never parses, and `find` keeps
returning the same positions while the buffer only grows. -/
theorem exchange_misses_valid_frame_after_garbage :
    _parse_frame [0xA5, 0x01, 0x20, 0x01, 0x00, 0x20, 0x5A] =
      some (0x20, 0x01, []) ∧
    _exchange CMD_GET_STS 1 []
      [[0xA5, 0x00, 0x5A, 0xA5, 0x01, 0x20, 0x01, 0x00, 0x20, 0x5A]] = none := by
  constructor
  · decide
  · decide

/-- C8 (amended): the exchange accepts exactly the slice delimited by the
first start marker in the buffer and the first end marker after it; whenever
that slice is a structurally valid frame it is returned immediately — for any
request command, target and payload, so in particular a stale reply to a
previous exchange is accepted.  A valid frame positioned after an unparseable
first slice is not extracted (see the counterexample). -/
theorem exchange_accepts_first_marker_slice (cmd gid : ℕ) (payload : List ℕ)
    (chunk : List ℕ) (rest : List (List ℕ)) (s e : ℕ) (p : ℕ × ℕ × List ℕ)
    (hne : chunk.isEmpty = false)
    (hs : chunk.findIdx? (fun b => b = START_BYTE) = some s)
    (he : find_from (fun b => b = END_BYTE) (s + 1) chunk = some e)
    (hp : _parse_frame ((chunk.drop s).take (e - s + 1)) = some p) :
    _exchange cmd gid payload (chunk :: rest) = some p := by
  simp only [_exchange, exchange_rx_loop, hne, Bool.false_eq_true, if_false,
    List.nil_append]
  simp only [hs]
  simp only [he]
  simp only [hp]

/-- C8 witness: a lone valid frame in the buffer is returned even though its
command byte answers a different request command. -/
theorem exchange_accepts_first_marker_slice_witness :
    _exchange 0x10 1 [] [[0xA5, 0x01, 0x20, 0x01, 0x00, 0x20, 0x5A]] =
      some (0x20, 0x01, []) :=
  exchange_accepts_first_marker_slice 0x10 1 []
    [0xA5, 0x01, 0x20, 0x01, 0x00, 0x20, 0x5A] [] 0 6 (0x20, 0x01, [])
    (by decide) (by decide) (by decide) (by decide)

end DTD

namespace DTD

/-- Detector-side mutable state of the DD main loop (`src/dd/main.py`): the
active identifier `DETECTOR_ID` and the loop counters. -/
structure DDState where
  detector_id : String
  ok_count : ℕ
  nok_count : ℕ
  setid_ok_count : ℕ
  setid_err_count : ℕ

/-- Presence measurement (`measure_state`, `dd/main.py` lines 143-145): the
stubbed sensor always reports 1 (powered). -/
def measure_state : ℕ := 1

/-- Poll acknowledgment line (`send_ack`, `dd/main.py` lines 157-158). -/
def send_ack (det_id : String) (state : ℕ) : String :=
  "ACK:" ++ det_id ++ ":" ++ (if state ≠ 0 then "1" else "0") ++ "\n"

/-- SETID acknowledgment line (`send_ack_id_change`, lines 160-161). -/
def send_ack_id_change (ok : Bool) (new_id : String) : String :=
  "ACKSETID:" ++ new_id ++ ":" ++ (if ok then "OK" else "ERR") ++ "\n"

/-- Dispatch of one parsed line in the DD main loop (`dd/main.py` lines
199-230), given the parsed verb and argument from `parse_line` (which
guarantees a SETID argument of 1-8 characters).  `persist_ok` models the
outcome of `_persist_id_to_nvs` (lines 63-72; the NVS store itself is ESP32
hardware outside the repository).  Returns the updated state and the lines
written to the UART. -/
def dd_dispatch (st : DDState) (persist_ok : Bool) (cmd det_id : String) :
    DDState × List String :=
  if cmd = "POLL" then
    if det_id = st.detector_id ∨ det_id.toUpper = "ALL" then
      ({ st with ok_count := st.ok_count + 1 },
        [send_ack st.detector_id measure_state])
    else ({ st with nok_count := st.nok_count + 1 }, [])
  else if cmd = "SETID" then
    if persist_ok then
      ({ st with
          detector_id := det_id
          setid_ok_count := st.setid_ok_count + 1 },
        [send_ack_id_change true det_id])
    else
      ({ st with setid_err_count := st.setid_err_count + 1 },
        [send_ack_id_change false det_id])
  else (st, [])

/-- C5: processing `SETID` with a valid 1-8 character id nid — when
persistence fails the active identifier is unchanged and the reply is the
failure acknowledgment `ACKSETID:nid:ERR`; when persistence succeeds the
active identifier becomes nid, so an immediately subsequent `POLL:nid` is
acknowledged with `ACK:nid:1`. -/
theorem setid_persistence (st : DDState) (nid : String)
    (h1 : 1 ≤ nid.length) (h8 : nid.length ≤ 8) :
    (dd_dispatch st false "SETID" nid).1.detector_id = st.detector_id ∧
    (dd_dispatch st false "SETID" nid).2 = ["ACKSETID:" ++ nid ++ ":ERR\n"] ∧
    (dd_dispatch st true "SETID" nid).1.detector_id = nid ∧
    ∀ persist_ok : Bool,
      (dd_dispatch (dd_dispatch st true "SETID" nid).1 persist_ok "POLL" nid).2 =
        ["ACK:" ++ nid ++ ":1\n"] := by
  refine ⟨?_, ?_, ?_, ?_⟩
  · simp [dd_dispatch]
  · simp [dd_dispatch, send_ack_id_change, String.append_assoc]
  · simp [dd_dispatch]
  · intro persist_ok
    simp [dd_dispatch, send_ack, measure_state, String.append_assoc]

/-- C5 witness: changing the identifier to `"07"` with persistence failing
then succeeding. -/
theorem setid_persistence_witness :
    (dd_dispatch ⟨"01", 0, 0, 0, 0⟩ false "SETID" "07").1.detector_id = "01" ∧
    (dd_dispatch ⟨"01", 0, 0, 0, 0⟩ false "SETID" "07").2 =
      ["ACKSETID:" ++ "07" ++ ":ERR\n"] ∧
    (dd_dispatch ⟨"01", 0, 0, 0, 0⟩ true "SETID" "07").1.detector_id = "07" ∧
    ∀ persist_ok : Bool,
      (dd_dispatch (dd_dispatch ⟨"01", 0, 0, 0, 0⟩ true "SETID" "07").1
        persist_ok "POLL" "07").2 = ["ACK:" ++ "07" ++ ":1\n"] :=
  setid_persistence ⟨"01", 0, 0, 0, 0⟩ "07" (by decide) (by decide)

end DTD

namespace DTD

/-- Watchdog timeout in milliseconds (`dd/main.py` line 14). -/
def WATCHDOG_MS : ℤ := 30000

/-- Signed tick difference (`time.ticks_diff`); tick counters are modelled as
unbounded integers, so the difference is plain subtraction. -/
def ticks_diff (a b : ℤ) : ℤ := a - b

/-- Shared watchdog state (`dd/main.py` lines 98-99): the progress timestamp
`last_loop_ts` and the one-shot guard `_wdt_triggered`. -/
structure WdtState where
  last_loop_ts : ℤ
  wdt_triggered : Bool

/-- Watchdog timer callback (`wdt_cb`, `dd/main.py` lines 108-119), at
current time `now`.  Returns the updated state and whether the reset path
(LED blink plus `reset()`) ran on this invocation. -/
def wdt_cb (now : ℤ) (st : WdtState) : WdtState × Bool :=
  if st.wdt_triggered then (st, false)
  else if ticks_diff now st.last_loop_ts > WATCHDOG_MS then
    ({ st with wdt_triggered := true }, true)
  else (st, false)

/-- Repeated checker invocations at the given times with the progress
timestamp no longer updated in between; counts how often the reset path
ran. -/
def run_wdt : WdtState → List ℤ → WdtState × ℕ
  | st, [] => (st, 0)
  | st, t :: ts =>
    let step := wdt_cb t st
    let res := run_wdt step.1 ts
    (res.1, (if step.2 then 1 else 0) + res.2)

/-- Once the guard flag is set every checker invocation returns early: the
state never changes again and the reset path never runs again. -/
lemma run_wdt_triggered (ts : List ℤ) :
    ∀ st : WdtState, st.wdt_triggered = true → run_wdt st ts = (st, 0) := by
  induction ts with
  | nil => intro st _; rfl
  | cons t ts ih =>
    intro st h
    have hcb : wdt_cb t st = (st, false) := by simp [wdt_cb, h]
    simp only [run_wdt, hcb]
    rw [ih st h]
    simp

/-- C6: when the guard is clear and the elapsed time since the last progress
stamp exceeds the watchdog timeout, the first checker invocation performs the
reset and sets the guard, and across that invocation plus arbitrarily many
later ones the reset path runs exactly once, with the state frozen after the
trigger. -/
theorem watchdog_fires_exactly_once (st : WdtState) (now : ℤ) (ts : List ℤ)
    (hguard : st.wdt_triggered = false)
    (helapsed : ticks_diff now st.last_loop_ts > WATCHDOG_MS) :
    (wdt_cb now st).2 = true ∧
    (wdt_cb now st).1.wdt_triggered = true ∧
    (run_wdt st (now :: ts)).2 = 1 ∧
    (run_wdt (wdt_cb now st).1 ts).1 = (wdt_cb now st).1 := by
  have hcb : wdt_cb now st = ({ st with wdt_triggered := true }, true) := by
    simp [wdt_cb, hguard, helapsed]
  have hrun := run_wdt_triggered ts { st with wdt_triggered := true } rfl
  refine ⟨by rw [hcb], by rw [hcb], ?_, by rw [hcb, hrun]⟩
  simp only [run_wdt, hcb, hrun]
  simp

/-- C6 witness: a stalled loop stamped at tick 0, checked at ticks 30001,
31000 and 45000, resets exactly once. -/
theorem watchdog_fires_exactly_once_witness :
    (wdt_cb 30001 ⟨0, false⟩).2 = true ∧
    (wdt_cb 30001 ⟨0, false⟩).1.wdt_triggered = true ∧
    (run_wdt ⟨0, false⟩ (30001 :: [31000, 45000])).2 = 1 ∧
    (run_wdt (wdt_cb 30001 ⟨0, false⟩).1 [31000, 45000]).1 =
      (wdt_cb 30001 ⟨0, false⟩).1 :=
  watchdog_fires_exactly_once ⟨0, false⟩ 30001 [31000, 45000] rfl (by decide)

end DTD
